import Mathlib

/-!
Verification of the portfolio accounting engine of Dinheiro-mart (`app.py`).

The engine is embedded shallowly: a transaction ledger is a `List Transacao`
with exact rational amounts and integer day numbers for dates; each Lean
definition below mirrors one of the Python functions
(`_consolidar_posicao_atual`, `_calcular_lucro_prejuizo_realizado`,
`_calcular_dividendos_recebidos`, the replay loop and the filtering /
normalization steps of `gerar_grafico_evolucao_patrimonio`, and
`calcular_dados_carteira`).
-/

/-- Transaction side: `Compra` (Buy) or `Venda` (Sell), the `tipo` column. -/
inductive Tipo where
  | Compra
  | Venda
deriving DecidableEq

/-- One ledger row: ticker, quantity, unit price (`preco_compra` also holds the
sell price on `Venda` rows, as in the CSV schema), trade date (`data_compra`,
as an integer day number) and side. -/
structure Transacao where
  ticker : String
  quantidade : ℚ
  preco_compra : ℚ
  data_compra : ℤ
  tipo : Tipo
deriving DecidableEq

/-- Buy rows of one ticker (the `compras_df` groupby member list). -/
def comprasTicker (df : List Transacao) (tk : String) : List Transacao :=
  df.filter (fun t => decide (t.tipo = Tipo.Compra ∧ t.ticker = tk))

/-- Sell rows of one ticker (the `vendas_df` groupby member list). -/
def vendasTicker (df : List Transacao) (tk : String) : List Transacao :=
  df.filter (fun t => decide (t.tipo = Tipo.Venda ∧ t.ticker = tk))

/-- `qtd_comprada`: total bought quantity of a ticker. -/
def qtd_comprada (df : List Transacao) (tk : String) : ℚ :=
  ((comprasTicker df tk).map (fun t => t.quantidade)).sum

/-- `custo_total_compras`: total buy cost of a ticker (sum of quantity * price). -/
def custo_total_compras (df : List Transacao) (tk : String) : ℚ :=
  ((comprasTicker df tk).map (fun t => t.quantidade * t.preco_compra)).sum

/-- `preco_medio_ponderado`: weighted average buy cost of a ticker. -/
def preco_medio_ponderado (df : List Transacao) (tk : String) : ℚ :=
  custo_total_compras df tk / qtd_comprada df tk

/-- `qtd_vendida`: total sold quantity of a ticker. -/
def qtd_vendida (df : List Transacao) (tk : String) : ℚ :=
  ((vendasTicker df tk).map (fun t => t.quantidade)).sum

/-- `quantidade_atual`: current position of a ticker after the outer merge. -/
def quantidade_atual (df : List Transacao) (tk : String) : ℚ :=
  qtd_comprada df tk - qtd_vendida df tk

/-- Whether a ticker has at least one Buy row (membership in `compras_agrupadas`,
which drives the inner merge of `_calcular_lucro_prejuizo_realizado`). -/
def hasCompra (df : List Transacao) (tk : String) : Bool :=
  df.any (fun t => decide (t.tipo = Tipo.Compra ∧ t.ticker = tk))

/-- The rows of `posicao_atual_df`: tickers kept by the `> 0.00001` filter,
with their current quantity and weighted average cost. -/
def posicaoAtualList (df : List Transacao) : List (String × ℚ × ℚ) :=
  (((df.map (fun t => t.ticker)).dedup).filter
      (fun tk => decide ((1 : ℚ) / 100000 < quantidade_atual df tk))).map
    (fun tk => (tk, quantidade_atual df tk, preco_medio_ponderado df tk))

/-- `lucro_realizado_individual`: realized gain of one Sell row, against the
all-time weighted average buy cost of its ticker. -/
def lucro_realizado_individual (df : List Transacao) (v : Transacao) : ℚ :=
  v.quantidade * v.preco_compra - v.quantidade * preco_medio_ponderado df v.ticker

/-- `vendas_com_custo`: Sell rows that survive the inner merge with
`compras_agrupadas` (their ticker has at least one Buy). -/
def vendas_com_custo (df : List Transacao) : List Transacao :=
  df.filter (fun t => decide (t.tipo = Tipo.Venda) && hasCompra df t.ticker)

/-- `lucros`: sum of the positive realized gains. -/
def lucros_realizados (df : List Transacao) : ℚ :=
  (((vendas_com_custo df).map (lucro_realizado_individual df)).filter
      (fun x => decide (0 < x))).sum

/-- `prejuizos`: sum of the negative realized gains. -/
def prejuizos_realizados (df : List Transacao) : ℚ :=
  (((vendas_com_custo df).map (lucro_realizado_individual df)).filter
      (fun x => decide (x < 0))).sum

/-- `shares_held` of a ticker strictly before a date: Buys minus Sells with
`data_compra < d` (the `transacoes_antes_div` computation). -/
def shares_held_before (df : List Transacao) (tk : String) (d : ℤ) : ℚ :=
  ((df.filter (fun t => decide (t.ticker = tk ∧ t.data_compra < d ∧ t.tipo = Tipo.Compra))).map
      (fun t => t.quantidade)).sum
  - ((df.filter (fun t => decide (t.ticker = tk ∧ t.data_compra < d ∧ t.tipo = Tipo.Venda))).map
      (fun t => t.quantidade)).sum

/-- Dividend income of one ticker over its dividend history
(ex-date, amount per share): accrues `shares_held * amount` when positive. -/
def dividendos_ticker (df : List Transacao) (tk : String) (hist : List (ℤ × ℚ)) : ℚ :=
  (hist.map (fun ev =>
      if 0 < shares_held_before df tk ev.1
      then shares_held_before df tk ev.1 * ev.2 else 0)).sum

/-- `_calcular_dividendos_recebidos`: total dividend income over the distinct
tickers of the ledger, with `feed` the external dividend history per ticker. -/
def total_dividendos (df : List Transacao) (feed : String → List (ℤ × ℚ)) : ℚ :=
  (((df.map (fun t => t.ticker)).dedup).map
      (fun tk => dividendos_ticker df tk (feed tk))).sum

/-- Running per-ticker state of the chart replay loop:
`custo_total_ticker` and `qtd_total_ticker`. -/
structure EstadoTicker where
  custo : ℚ
  qtd : ℚ
deriving DecidableEq

/-- `preco_medio_antes_venda`: the running average cost consumed by a Sell,
`custo / qtd` when the running quantity is positive, `0` otherwise. -/
def preco_medio_antes_venda (s : EstadoTicker) : ℚ :=
  if 0 < s.qtd then s.custo / s.qtd else 0

/-- One step of the replay loop: a Buy adds quantity and cost, a Sell removes
its quantity and `quantity * running average cost`. -/
def aplicarTransacao (s : EstadoTicker) (t : Transacao) : EstadoTicker :=
  match t.tipo with
  | Tipo.Compra => ⟨s.custo + t.quantidade * t.preco_compra, s.qtd + t.quantidade⟩
  | Tipo.Venda =>
      ⟨s.custo - t.quantidade * preco_medio_antes_venda s,
       s.qtd - t.quantidade⟩

/-- Replay the rows of one ticker from the zero state. -/
def replayEstado (df : List Transacao) (tk : String) : EstadoTicker :=
  (df.filter (fun t => decide (t.ticker = tk))).foldl aplicarTransacao ⟨0, 0⟩

/-- Ledger restricted to trades on or before a date (the `.loc[data:]` updates
make a date's row reflect exactly the transactions up to that date). -/
def txsAte (df : List Transacao) (d : ℤ) : List Transacao :=
  df.filter (fun t => decide (t.data_compra ≤ d))

/-- `posicao_df` entry: position quantity of a ticker at a date. -/
def posicaoDia (df : List Transacao) (tk : String) (d : ℤ) : ℚ :=
  (replayEstado (txsAte df d) tk).qtd

/-- `custo_acumulado_df` entry: cumulative cost of a ticker at a date. -/
def custoDia (df : List Transacao) (tk : String) (d : ℤ) : ℚ :=
  (replayEstado (txsAte df d) tk).custo

/-- `Patrimônio` column: position times price, summed across tickers. -/
def patrimonioDia (df : List Transacao) (price : String → ℤ → ℚ) (d : ℤ) : ℚ :=
  (((df.map (fun t => t.ticker)).dedup).map
      (fun tk => posicaoDia df tk d * price tk d)).sum

/-- `Custo Total` column: cumulative cost summed across tickers. -/
def custoTotalDia (df : List Transacao) (d : ℤ) : ℚ :=
  (((df.map (fun t => t.ticker)).dedup).map (fun tk => custoDia df tk d)).sum

/-- Dates kept by `evolucao_df = evolucao_df[evolucao_df.sum(axis=1) > 0]`. -/
def evolucaoIndex (df : List Transacao) (price : String → ℤ → ℚ)
    (dates : List ℤ) : List ℤ :=
  dates.filter (fun d => decide (0 < patrimonioDia df price d + custoTotalDia df d))

/-- Base-100 normalization: `100 * (series / series.iloc[0])`. -/
def normalizarBase100 (v : List ℚ) : List ℚ :=
  v.map (fun x => 100 * (x / v.headD 0))

/-- Forward-fill lookup into a raw date-indexed series: the last value whose
date is at or before `d` (`reindex(..., method='ffill')`). -/
def ffillAt (raw : List (ℤ × ℚ)) (d : ℤ) : Option ℚ :=
  ((raw.filter (fun p => decide (p.1 ≤ d))).map (fun p => p.2)).getLast?

/-- Backward-fill over an option-valued column (`.bfill()`): each missing entry
takes the next filled value after it, if any. -/
def bfill : List (Option ℚ) → List (Option ℚ)
  | [] => []
  | x :: xs =>
      let r := bfill xs
      match x with
      | some v => some v :: r
      | none => r.headD none :: r

/-- A benchmark series aligned to the portfolio's date index:
forward-fill then backward-fill. -/
def alinharIndice (index : List ℤ) (raw : List (ℤ × ℚ)) : List (Option ℚ) :=
  bfill (index.map (fun d => ffillAt raw d))

/-- One benchmark column: `none` when the aligned series is empty or its first
value is missing or zero (the `continue` guard), otherwise the series
normalized to base 100 against its own first aligned value. -/
def normalizarIndice (index : List ℤ) (raw : List (ℤ × ℚ)) : Option (List (Option ℚ)) :=
  match (alinharIndice index raw).head? with
  | none => none
  | some none => none
  | some (some v0) =>
      if v0 = 0 then none
      else some ((alinharIndice index raw).map (fun x => x.map (fun v => 100 * (v / v0))))

/-- The benchmark columns of `df_comparativo`: one per requested benchmark that
survives its own guard, keyed by name. -/
def montarComparativo (index : List ℤ)
    (pedidos : List (String × List (ℤ × ℚ))) : List (String × List (Option ℚ)) :=
  pedidos.filterMap (fun p => (normalizarIndice index p.2).map (fun col => (p.1, col)))

/-- The metrics bundle returned by `calcular_dados_carteira`. -/
structure DadosCarteira where
  posicao_atual : List (String × ℚ × ℚ)
  lucros : ℚ
  prejuizos : ℚ
  dividendos : ℚ
deriving DecidableEq

/-- Build the metrics bundle from a (already date-filtered) ledger. -/
def dadosDe (feed : String → List (ℤ × ℚ)) (df : List Transacao) : DadosCarteira :=
  ⟨posicaoAtualList df, lucros_realizados df, prejuizos_realizados df,
   total_dividendos df feed⟩

/-- `calcular_dados_carteira`: empty ledger and all-future ledger short-circuit
to explicit error markers; otherwise the metrics are computed on the ledger
restricted to trades dated on or before `today`. -/
def calcularDadosCarteira (today : ℤ) (feed : String → List (ℤ × ℚ))
    (df : List Transacao) : Except String DadosCarteira :=
  if df = [] then Except.error "Carteira vazia"
  else if df.filter (fun t => decide (t.data_compra ≤ today)) = [] then
    Except.error "Nenhuma transacao encontrada ate a data de hoje"
  else Except.ok (dadosDe feed (df.filter (fun t => decide (t.data_compra ≤ today))))

/-! ## Helper lemmas -/

theorem sum_nonpos_of_mem (l : List ℚ) (h : ∀ x ∈ l, x ≤ 0) : l.sum ≤ 0 := by
  induction l with
  | nil => simp
  | cons a l ih =>
    simp only [List.sum_cons]
    have ha := h a (List.mem_cons_self a l)
    have hl := ih (fun x hx => h x (List.mem_cons_of_mem a hx))
    linarith

theorem sum_filter_sign_split (l : List ℚ) :
    (l.filter (fun x => decide (0 < x))).sum + (l.filter (fun x => decide (x < 0))).sum
      = l.sum := by
  induction l with
  | nil => simp
  | cons a l ih =>
    simp only [List.filter_cons, List.sum_cons]
    rcases lt_trichotomy a 0 with h | h | h
    · rw [if_neg (by simp [not_lt.mpr h.le]), if_pos (by simp [h])]
      simp only [List.sum_cons]
      linarith
    · subst h
      rw [if_neg (by simp), if_neg (by simp)]
      linarith
    · rw [if_pos (by simp [h]), if_neg (by simp [not_lt.mpr h.le])]
      simp only [List.sum_cons]
      linarith

/-! ## C1 -/

/-- C1: for a ledger containing only Buy transactions, the consolidator's
current quantity of each ticker is the plain sum of that ticker's bought
quantities, and its weighted average cost is the total buy cost divided by the
total bought quantity, exactly. -/
theorem c1_buys_only_consolidation (df : List Transacao)
    (honly : ∀ t ∈ df, t.tipo = Tipo.Compra) (tk : String) :
    quantidade_atual df tk
        = ((df.filter (fun t => decide (t.ticker = tk))).map (fun t => t.quantidade)).sum
      ∧ preco_medio_ponderado df tk
        = ((df.filter (fun t => decide (t.ticker = tk))).map
              (fun t => t.quantidade * t.preco_compra)).sum
          / ((df.filter (fun t => decide (t.ticker = tk))).map (fun t => t.quantidade)).sum := by
  have hc : comprasTicker df tk = df.filter (fun t => decide (t.ticker = tk)) := by
    apply List.filter_congr
    intro t ht
    rw [decide_eq_decide]
    simp [honly t ht]
  have hv : vendasTicker df tk = [] := by
    rw [vendasTicker, List.filter_eq_nil_iff]
    intro t ht
    simp [honly t ht]
  constructor
  · rw [quantidade_atual, qtd_vendida, hv, qtd_comprada, hc]
    simp
  · rw [preco_medio_ponderado, custo_total_compras, qtd_comprada, hc]

/-- Concrete two-buy ledger used as the C1 witness input. -/
def dfW1 : List Transacao :=
  [⟨"A", 2, 5, 0, Tipo.Compra⟩, ⟨"A", 3, 10, 1, Tipo.Compra⟩]

theorem c1_witness :
    (∀ t ∈ dfW1, t.tipo = Tipo.Compra)
      ∧ (quantidade_atual dfW1 "A"
            = ((dfW1.filter (fun t => decide (t.ticker = "A"))).map
                (fun t => t.quantidade)).sum
          ∧ preco_medio_ponderado dfW1 "A"
            = ((dfW1.filter (fun t => decide (t.ticker = "A"))).map
                  (fun t => t.quantidade * t.preco_compra)).sum
              / ((dfW1.filter (fun t => decide (t.ticker = "A"))).map
                  (fun t => t.quantidade)).sum) :=
  ⟨by decide, c1_buys_only_consolidation dfW1 (by decide) "A"⟩

/-! ## C2 -/

/-- The spec's scenario ledger: Buy 10 @ 10 on day 0, Buy 10 @ 20 on day 31,
Sell 5 @ 25 on day 59, all of one ticker. -/
def dfC2 : List Transacao :=
  [⟨"X", 10, 10, 0, Tipo.Compra⟩, ⟨"X", 10, 20, 31, Tipo.Compra⟩,
   ⟨"X", 5, 25, 59, Tipo.Venda⟩]

/-- C2: on the scenario ledger, the weighted average cost is 15, the remaining
quantity is 15, and the sell realizes a gain of 50 (reported in the positive
aggregate, with a zero negative aggregate). -/
theorem c2_scenario_values :
    preco_medio_ponderado dfC2 "X" = 15
      ∧ quantidade_atual dfC2 "X" = 15
      ∧ lucro_realizado_individual dfC2 ⟨"X", 5, 25, 59, Tipo.Venda⟩ = 50
      ∧ lucros_realizados dfC2 = 50
      ∧ prejuizos_realizados dfC2 = 0 := by
  have hpm : preco_medio_ponderado dfC2 "X" = 15 := by
    simp [preco_medio_ponderado, custo_total_compras, qtd_comprada, comprasTicker,
      dfC2, List.filter]
    norm_num
  have hqa : quantidade_atual dfC2 "X" = 15 := by
    simp [quantidade_atual, qtd_comprada, qtd_vendida, comprasTicker, vendasTicker,
      dfC2, List.filter]
    norm_num
  have hli : lucro_realizado_individual dfC2 ⟨"X", 5, 25, 59, Tipo.Venda⟩ = 50 := by
    rw [lucro_realizado_individual, hpm]
    norm_num
  have hvc : vendas_com_custo dfC2 = [⟨"X", 5, 25, 59, Tipo.Venda⟩] := by decide
  have hmap : (vendas_com_custo dfC2).map (lucro_realizado_individual dfC2) = [50] := by
    rw [hvc, List.map_cons, List.map_nil, hli]
  refine ⟨hpm, hqa, hli, ?_, ?_⟩
  · rw [lucros_realizados, hmap]
    norm_num [List.filter]
  · rw [prejuizos_realizados, hmap]
    norm_num [List.filter]

/-! ## C4 -/

/-- C4: the realized P&L engine computes each surviving sell's gain as
`quantity * sell_price - quantity * weighted_avg_cost`, and reports the
positive gains and the negative gains as two separate aggregates: the gains
aggregate is nonnegative, the losses aggregate is nonpositive, and their sum
is the total net realized P&L over all sells with a cost basis. -/
theorem c4_realized_pnl_aggregates (df : List Transacao) :
    0 ≤ lucros_realizados df
      ∧ prejuizos_realizados df ≤ 0
      ∧ lucros_realizados df + prejuizos_realizados df
          = ((vendas_com_custo df).map (fun v =>
              v.quantidade * v.preco_compra
                - v.quantidade * preco_medio_ponderado df v.ticker)).sum := by
  refine ⟨?_, ?_, ?_⟩
  · apply List.sum_nonneg
    intro x hx
    rw [List.mem_filter] at hx
    have hpos := hx.2
    simp only [decide_eq_true_eq] at hpos
    exact hpos.le
  · apply sum_nonpos_of_mem
    intro x hx
    rw [List.mem_filter] at hx
    have hneg := hx.2
    simp only [decide_eq_true_eq] at hneg
    exact hneg.le
  · rw [lucros_realizados, prejuizos_realizados, sum_filter_sign_split]
    rfl

/-! ## C5 -/

/-- C5: dividend attribution counts, for each dividend event, the shares held
strictly before the ex-date: a Buy dated exactly on the ex-date contributes
nothing, a Buy dated one day earlier contributes its full quantity, and the
total dividend income accrues `shares_held * amount_per_share` only when
`shares_held` is positive, summed per ticker and then across the ledger's
distinct tickers. -/
theorem c5_dividend_attribution (df : List Transacao) (feed : String → List (ℤ × ℚ))
    (tk : String) (d : ℤ) (q p : ℚ) :
    shares_held_before (df ++ [⟨tk, q, p, d, Tipo.Compra⟩]) tk d
        = shares_held_before df tk d
      ∧ shares_held_before (df ++ [⟨tk, q, p, d - 1, Tipo.Compra⟩]) tk d
          = shares_held_before df tk d + q
      ∧ total_dividendos df feed
          = (((df.map (fun t => t.ticker)).dedup).map (fun tk2 =>
              ((feed tk2).map (fun ev =>
                if 0 < shares_held_before df tk2 ev.1
                then shares_held_before df tk2 ev.1 * ev.2 else 0)).sum)).sum := by
  refine ⟨?_, ?_, rfl⟩
  · simp [shares_held_before, List.filter_append, List.filter]
  · simp [shares_held_before, List.filter_append, List.filter, sub_lt_self_iff]
    ring

/-! ## C9 -/

/-- C9: base-100 normalization is scale-invariant: for a series with a nonzero
first value, normalizing the series scaled by any positive constant yields
exactly the same output as normalizing the series itself, namely
`100 * v(t) / v(t0)`. -/
theorem c9_normalization_scale_invariant (v : List ℚ) (c : ℚ)
    (hne : v ≠ []) (h0 : v.headD 0 ≠ 0) (hc : 0 < c) :
    normalizarBase100 (v.map (fun x => c * x)) = normalizarBase100 v
      ∧ normalizarBase100 v = v.map (fun x => 100 * x / v.headD 0) := by
  have hhead : (v.map (fun x => c * x)).headD 0 = c * v.headD 0 := by
    cases v with
    | nil => exact absurd rfl hne
    | cons a l => simp
  constructor
  · rw [normalizarBase100, normalizarBase100, hhead, List.map_map]
    apply List.map_congr_left
    intro a _
    simp only [Function.comp_apply]
    rw [mul_div_mul_left a (v.headD 0) (ne_of_gt hc)]
  · apply List.map_congr_left
    intro a _
    rw [mul_div_assoc]

theorem c9_witness :
    (([2, 4] : List ℚ) ≠ [] ∧ (([2, 4] : List ℚ).headD 0 ≠ 0) ∧ (0 : ℚ) < 3)
      ∧ (normalizarBase100 (([2, 4] : List ℚ).map (fun x => 3 * x))
            = normalizarBase100 [2, 4]
          ∧ normalizarBase100 [2, 4]
            = ([2, 4] : List ℚ).map (fun x => 100 * x / ([2, 4] : List ℚ).headD 0)) :=
  ⟨⟨by simp, by norm_num, by norm_num⟩,
   c9_normalization_scale_invariant [2, 4] 3 (by simp) (by norm_num) (by norm_num)⟩

/-! ## C3 -/

/-- A sell that liquidates the whole running position of its ticker. -/
def vendaTotal : Transacao := ⟨"A", 10, 99, 5, Tipo.Venda⟩

/-- Running state before `vendaTotal`: cost 150, quantity 10, average cost 15. -/
def estadoAntes : EstadoTicker := ⟨150, 10⟩

/-- C3 counterexample: the quantity held before the sell is positive, yet the
sell changes the running average cost consumed by the replay (from 15 to 0),
because it liquidates the whole position. -/
theorem c3_counterexample :
    vendaTotal.tipo = Tipo.Venda
      ∧ 0 < estadoAntes.qtd
      ∧ preco_medio_antes_venda (aplicarTransacao estadoAntes vendaTotal)
          ≠ preco_medio_antes_venda estadoAntes := by
  have h1 : preco_medio_antes_venda estadoAntes = 15 := by
    norm_num [preco_medio_antes_venda, estadoAntes]
  have h2 : aplicarTransacao estadoAntes vendaTotal = ⟨0, 0⟩ := by
    norm_num [aplicarTransacao, vendaTotal, preco_medio_antes_venda, estadoAntes]
  refine ⟨rfl, by norm_num [estadoAntes], ?_⟩
  rw [h1, h2]
  norm_num [preco_medio_antes_venda]

/-- C3 (amended: the running average is also required to be over a still
positive position after the sell): a Sell leaves the consolidated weighted
average cost unchanged and only reduces the consolidated quantity; in the
replay it removes `quantity * running_average` from the running cost and
`quantity` from the running quantity, and leaves the running average cost
unchanged whenever the quantities held before and after the sell are both
positive. -/
theorem c3_sell_preserves_avg_cost (df : List Transacao) (v : Transacao)
    (s : EstadoTicker) (hv : v.tipo = Tipo.Venda) (hq : 0 < s.qtd) :
    preco_medio_ponderado (df ++ [v]) v.ticker = preco_medio_ponderado df v.ticker
      ∧ quantidade_atual (df ++ [v]) v.ticker
          = quantidade_atual df v.ticker - v.quantidade
      ∧ (aplicarTransacao s v).qtd = s.qtd - v.quantidade
      ∧ (aplicarTransacao s v).custo = s.custo - v.quantidade * (s.custo / s.qtd)
      ∧ (0 < s.qtd - v.quantidade →
          preco_medio_antes_venda (aplicarTransacao s v) = preco_medio_antes_venda s) := by
  have happly : aplicarTransacao s v
      = ⟨s.custo - v.quantidade * (s.custo / s.qtd), s.qtd - v.quantidade⟩ := by
    simp [aplicarTransacao, hv, preco_medio_antes_venda, hq]
  have hcomp : comprasTicker (df ++ [v]) v.ticker = comprasTicker df v.ticker := by
    rw [comprasTicker, comprasTicker, List.filter_append]
    simp [List.filter, hv]
  have hvend : vendasTicker (df ++ [v]) v.ticker = vendasTicker df v.ticker ++ [v] := by
    rw [vendasTicker, vendasTicker, List.filter_append]
    simp [List.filter, hv]
  refine ⟨?_, ?_, ?_, ?_, ?_⟩
  · rw [preco_medio_ponderado, preco_medio_ponderado, custo_total_compras,
      custo_total_compras, qtd_comprada, qtd_comprada, hcomp]
  · rw [quantidade_atual, quantidade_atual, qtd_comprada, qtd_comprada, hcomp,
      qtd_vendida, qtd_vendida, hvend]
    simp
    ring
  · rw [happly]
  · rw [happly]
  · intro hq2
    rw [happly]
    have h1 : s.qtd ≠ 0 := ne_of_gt hq
    have h2 : s.qtd - v.quantidade ≠ 0 := ne_of_gt hq2
    simp only [preco_medio_antes_venda]
    rw [if_pos hq2, if_pos hq]
    field_simp
    ring

/-- Ledger used as the C3 witness input. -/
def dfW3 : List Transacao := [⟨"A", 2, 7, 0, Tipo.Compra⟩]

/-- Sell used as the C3 witness input. -/
def vW3 : Transacao := ⟨"A", 1, 9, 1, Tipo.Venda⟩

theorem c3_witness :
    (vW3.tipo = Tipo.Venda ∧ 0 < (⟨20, 2⟩ : EstadoTicker).qtd)
      ∧ (preco_medio_ponderado (dfW3 ++ [vW3]) vW3.ticker
            = preco_medio_ponderado dfW3 vW3.ticker
          ∧ quantidade_atual (dfW3 ++ [vW3]) vW3.ticker
              = quantidade_atual dfW3 vW3.ticker - vW3.quantidade
          ∧ (aplicarTransacao ⟨20, 2⟩ vW3).qtd = (⟨20, 2⟩ : EstadoTicker).qtd - vW3.quantidade
          ∧ (aplicarTransacao ⟨20, 2⟩ vW3).custo
              = (⟨20, 2⟩ : EstadoTicker).custo
                - vW3.quantidade * ((⟨20, 2⟩ : EstadoTicker).custo / (⟨20, 2⟩ : EstadoTicker).qtd)
          ∧ (0 < (⟨20, 2⟩ : EstadoTicker).qtd - vW3.quantidade →
              preco_medio_antes_venda (aplicarTransacao ⟨20, 2⟩ vW3)
                = preco_medio_antes_venda ⟨20, 2⟩)) :=
  ⟨⟨rfl, by norm_num⟩,
   c3_sell_preserves_avg_cost dfW3 vW3 ⟨20, 2⟩ rfl (by norm_num)⟩

/-! ## C6 -/

/-- Ledger with a Sell of a ticker that has no Buy rows. -/
def dfSemCompra : List Transacao := [⟨"A", 5, 10, 0, Tipo.Venda⟩]

/-- Ledger whose single Sell has a genuine realized gain of exactly zero. -/
def dfGanhoZero : List Transacao :=
  [⟨"A", 5, 10, 0, Tipo.Compra⟩, ⟨"A", 5, 10, 1, Tipo.Venda⟩]

/-- C6 counterexample: a Sell with no cost basis produces exactly the output
`(0, 0)` that a ledger with a genuine zero realized gain also produces — the
realized P&L result carries no separate unavailability marker, so the caller
cannot distinguish the two cases from the engine's output. -/
theorem c6_counterexample :
    lucros_realizados dfSemCompra = 0
      ∧ prejuizos_realizados dfSemCompra = 0
      ∧ lucros_realizados dfSemCompra = lucros_realizados dfGanhoZero
      ∧ prejuizos_realizados dfSemCompra = prejuizos_realizados dfGanhoZero := by
  have h1 : vendas_com_custo dfSemCompra = [] := by decide
  have h2 : vendas_com_custo dfGanhoZero = [⟨"A", 5, 10, 1, Tipo.Venda⟩] := by decide
  have hcp : comprasTicker dfGanhoZero "A" = [⟨"A", 5, 10, 0, Tipo.Compra⟩] := by decide
  have h3 : lucro_realizado_individual dfGanhoZero ⟨"A", 5, 10, 1, Tipo.Venda⟩ = 0 := by
    simp only [lucro_realizado_individual, preco_medio_ponderado, custo_total_compras,
      qtd_comprada]
    rw [hcp]
    norm_num
  have hmap2 : (vendas_com_custo dfGanhoZero).map (lucro_realizado_individual dfGanhoZero)
      = [0] := by
    rw [h2, List.map_cons, List.map_nil, h3]
  have hA : lucros_realizados dfSemCompra = 0 := by rw [lucros_realizados, h1]; simp
  have hB : prejuizos_realizados dfSemCompra = 0 := by rw [prejuizos_realizados, h1]; simp
  have hC : lucros_realizados dfGanhoZero = 0 := by
    rw [lucros_realizados, hmap2]; norm_num [List.filter]
  have hD : prejuizos_realizados dfGanhoZero = 0 := by
    rw [prejuizos_realizados, hmap2]; norm_num [List.filter]
  exact ⟨hA, hB, by rw [hA, hC], by rw [hB, hD]⟩

/-- C6 (amended: the inner join silently drops such sells, with no explicit
unavailability marker in the result): for every ledger, the sells of a ticker
with no Buy transactions contribute zero to both realized aggregates — the
realized gains and losses are the same as on the ledger with that ticker's
sells removed — and the `(gains, losses)` output carries no separate signal
distinguishing this case from a genuine zero gain. -/
theorem c6_no_cost_basis_zero_contribution (df : List Transacao) (tk : String)
    (h : hasCompra df tk = false) :
    lucros_realizados df
        = lucros_realizados
            (df.filter (fun t => !(decide (t.ticker = tk) && decide (t.tipo = Tipo.Venda))))
      ∧ prejuizos_realizados df
        = prejuizos_realizados
            (df.filter (fun t => !(decide (t.ticker = tk) && decide (t.tipo = Tipo.Venda)))) := by
  set P : Transacao → Bool :=
    fun t => !(decide (t.ticker = tk) && decide (t.tipo = Tipo.Venda)) with hP
  have hcompEq : ∀ tk2, comprasTicker (df.filter P) tk2 = comprasTicker df tk2 := by
    intro tk2
    rw [comprasTicker, comprasTicker, List.filter_filter]
    apply List.filter_congr
    intro t _
    by_cases hq : t.tipo = Tipo.Compra ∧ t.ticker = tk2
    · simp [hP, hq.1]
    · simp [hq]
  have hprecoEq : ∀ tk2, preco_medio_ponderado (df.filter P) tk2 = preco_medio_ponderado df tk2 := by
    intro tk2
    rw [preco_medio_ponderado, preco_medio_ponderado, custo_total_compras,
      custo_total_compras, qtd_comprada, qtd_comprada, hcompEq]
  have hlucroEq : lucro_realizado_individual (df.filter P) = lucro_realizado_individual df := by
    funext v
    rw [lucro_realizado_individual, lucro_realizado_individual, hprecoEq]
  have hhasEq : ∀ tk2, hasCompra (df.filter P) tk2 = hasCompra df tk2 := by
    intro tk2
    have hiff : hasCompra (df.filter P) tk2 = true ↔ hasCompra df tk2 = true := by
      simp only [hasCompra, List.any_eq_true, List.mem_filter, decide_eq_true_eq]
      constructor
      · rintro ⟨t, ⟨ht, _⟩, hp⟩
        exact ⟨t, ht, hp⟩
      · rintro ⟨t, ht, hp⟩
        refine ⟨t, ⟨ht, ?_⟩, hp⟩
        simp [hP, hp.1]
    cases h1 : hasCompra (df.filter P) tk2 <;> cases h2 : hasCompra df tk2 <;> simp_all
  have hvendEq : vendas_com_custo (df.filter P) = vendas_com_custo df := by
    rw [vendas_com_custo, vendas_com_custo, List.filter_filter]
    apply List.filter_congr
    intro t _
    rw [hhasEq]
    by_cases hvt : t.tipo = Tipo.Venda
    · by_cases htk : t.ticker = tk
      · have : hasCompra df t.ticker = false := htk ▸ h
        simp [this]
      · simp [hP, htk]
    · simp [hvt]
  constructor
  · rw [lucros_realizados, lucros_realizados, hvendEq, hlucroEq]
  · rw [prejuizos_realizados, prejuizos_realizados, hvendEq, hlucroEq]

/-- Ledger used as the C6 witness input: a no-cost-basis sell of ticker A next
to a normal buy-then-sell history of ticker B. -/
def dfW6 : List Transacao :=
  [⟨"A", 1, 10, 0, Tipo.Venda⟩, ⟨"B", 2, 5, 0, Tipo.Compra⟩, ⟨"B", 1, 8, 1, Tipo.Venda⟩]

theorem c6_witness :
    hasCompra dfW6 "A" = false
      ∧ (lucros_realizados dfW6
            = lucros_realizados
                (dfW6.filter (fun t => !(decide (t.ticker = "A") && decide (t.tipo = Tipo.Venda))))
          ∧ prejuizos_realizados dfW6
            = prejuizos_realizados
                (dfW6.filter (fun t => !(decide (t.ticker = "A") && decide (t.tipo = Tipo.Venda))))) :=
  ⟨by decide, c6_no_cost_basis_zero_contribution dfW6 "A" (by decide)⟩

/-! ## C7 -/

/-- Ledger that fully exits its position on day 1 and re-enters on day 2. -/
def txsC7 : List Transacao :=
  [⟨"A", 1, 10, 0, Tipo.Compra⟩, ⟨"A", 1, 99, 1, Tipo.Venda⟩, ⟨"A", 1, 10, 2, Tipo.Compra⟩]

/-- Constant external price of 10 for every ticker and date. -/
def precoC7 : String → ℤ → ℚ := fun _ _ => 10

/-- C7 counterexample: on day 0 the portfolio value is nonzero (so the leading
both-zero run is empty and the claim asserts every date of the range is
retained), yet day 1 — where the position was fully exited and both series
return to zero — is removed from the output index. -/
theorem c7_counterexample :
    patrimonioDia txsC7 precoC7 0 ≠ 0
      ∧ (1 : ℤ) ∈ ([0, 1, 2] : List ℤ)
      ∧ (1 : ℤ) ∉ evolucaoIndex txsC7 precoC7 [0, 1, 2] := by
  have hdedup : (txsC7.map (fun t => t.ticker)).dedup = ["A"] := by decide
  have hl0 : (txsAte txsC7 0).filter (fun t => decide (t.ticker = "A"))
      = [⟨"A", 1, 10, 0, Tipo.Compra⟩] := by decide
  have hl1 : (txsAte txsC7 1).filter (fun t => decide (t.ticker = "A"))
      = [⟨"A", 1, 10, 0, Tipo.Compra⟩, ⟨"A", 1, 99, 1, Tipo.Venda⟩] := by decide
  have hr0 : replayEstado (txsAte txsC7 0) "A" = ⟨10, 1⟩ := by
    rw [replayEstado, hl0]
    norm_num [List.foldl, aplicarTransacao]
  have hr1 : replayEstado (txsAte txsC7 1) "A" = ⟨0, 0⟩ := by
    rw [replayEstado, hl1]
    norm_num [List.foldl, aplicarTransacao, preco_medio_antes_venda]
  have hp0 : patrimonioDia txsC7 precoC7 0 = 10 := by
    rw [patrimonioDia, hdedup]
    simp only [List.map_cons, List.map_nil, List.sum_cons, List.sum_nil, posicaoDia]
    rw [hr0]
    norm_num [precoC7]
  have hp1 : patrimonioDia txsC7 precoC7 1 = 0 := by
    rw [patrimonioDia, hdedup]
    simp only [List.map_cons, List.map_nil, List.sum_cons, List.sum_nil, posicaoDia]
    rw [hr1]
    norm_num [precoC7]
  have hc1 : custoTotalDia txsC7 1 = 0 := by
    rw [custoTotalDia, hdedup]
    simp only [List.map_cons, List.map_nil, List.sum_cons, List.sum_nil, custoDia]
    rw [hr1]
    norm_num
  refine ⟨by rw [hp0]; norm_num, by norm_num, ?_⟩
  simp only [evolucaoIndex, List.mem_filter, decide_eq_true_eq, not_and]
  intro _
  rw [hp1, hc1]
  norm_num

/-- C7 (amended: the filter is not restricted to the leading run): the
time-series output retains exactly the dates of the range on which portfolio
value plus cumulative cost is strictly positive; every date where that sum is
zero or negative — the leading both-zero run, but also any later full-exit
date — is removed. -/
theorem c7_filter_characterization (df : List Transacao) (price : String → ℤ → ℚ)
    (dates : List ℤ) (d : ℤ) :
    d ∈ evolucaoIndex df price dates
      ↔ d ∈ dates ∧ 0 < patrimonioDia df price d + custoTotalDia df d := by
  simp [evolucaoIndex, List.mem_filter]

/-! ## C8 -/

theorem lookup_montar_of_not_mem (index : List ℤ)
    (pedidos : List (String × List (ℤ × ℚ))) (name : String)
    (h : name ∉ pedidos.map Prod.fst) :
    (montarComparativo index pedidos).lookup name = none := by
  induction pedidos with
  | nil => rfl
  | cons p rest ih =>
    simp only [List.map_cons, List.mem_cons, not_or] at h
    obtain ⟨hne, hrest⟩ := h
    rw [montarComparativo, List.filterMap_cons]
    cases hN : normalizarIndice index p.2 with
    | none =>
      simp only [hN, Option.map_none']
      exact ih hrest
    | some col =>
      simp only [hN, Option.map_some']
      have hb : (name == p.1) = false := beq_eq_false_iff_ne.mpr hne
      simp only [List.lookup, hb]
      exact ih hrest

/-- C8: each requested benchmark is processed independently: looking up a
benchmark's column in the assembled comparison yields `none` exactly when its
own forward-fill/backward-fill alignment to the portfolio index has an empty,
missing or zero first value (the benchmark is omitted, with no division by
zero), and otherwise yields its series normalized to base 100 against its own
first aligned value. -/
theorem c8_benchmark_normalization (index : List ℤ)
    (pedidos : List (String × List (ℤ × ℚ))) (name : String) (raw : List (ℤ × ℚ))
    (hmem : (name, raw) ∈ pedidos) (hnd : (pedidos.map Prod.fst).Nodup) :
    (montarComparativo index pedidos).lookup name = normalizarIndice index raw := by
  induction pedidos with
  | nil => cases hmem
  | cons p rest ih =>
    rw [List.map_cons, List.nodup_cons] at hnd
    obtain ⟨hp, hrest⟩ := hnd
    rcases List.mem_cons.mp hmem with heq | hmemr
    · obtain ⟨n, r⟩ := p
      cases heq
      rw [montarComparativo, List.filterMap_cons]
      cases hN : normalizarIndice index raw with
      | none =>
        simp only [hN, Option.map_none']
        exact lookup_montar_of_not_mem index rest name hp
      | some col =>
        simp only [hN, Option.map_some']
        simp [List.lookup]
    · have hne : p.1 ≠ name := by
        intro hx
        apply hp
        rw [hx]
        exact List.mem_map_of_mem Prod.fst hmemr
      rw [montarComparativo, List.filterMap_cons]
      cases hN : normalizarIndice index p.2 with
      | none =>
        simp only [hN, Option.map_none']
        exact ih hmemr hrest
      | some col =>
        simp only [hN, Option.map_some']
        have hb : (name == p.1) = false := beq_eq_false_iff_ne.mpr (Ne.symm hne)
        simp only [List.lookup, hb]
        exact ih hmemr hrest

/-- Portfolio date index used as the C8 witness input. -/
def indexW8 : List ℤ := [0, 1]

/-- Requested benchmarks for the C8 witness: benchmark A has first aligned
value zero (so it is omitted), benchmark B is normal. -/
def pedidosW8 : List (String × List (ℤ × ℚ)) := [("A", [(0, 0)]), ("B", [(0, 2)])]

theorem c8_witness :
    ((("A", [((0 : ℤ), (0 : ℚ))]) ∈ pedidosW8) ∧ (pedidosW8.map Prod.fst).Nodup)
      ∧ (montarComparativo indexW8 pedidosW8).lookup "A"
          = normalizarIndice indexW8 [((0 : ℤ), (0 : ℚ))] :=
  ⟨⟨by decide, by decide⟩,
   c8_benchmark_normalization indexW8 pedidosW8 "A" [(0, 0)] (by decide) (by decide)⟩

/-! ## C10 -/

/-- C10: the portfolio metrics computation discards transactions dated after
`today` up front: when every transaction is future-dated the result is the
explicit error marker (not an exception), and when at least one transaction is
not future-dated the result equals the computation on the ledger restricted to
past-or-today transactions, succeeding with exactly the metrics of that
restricted ledger. -/
theorem c10_future_transactions_discarded (today : ℤ) (feed : String → List (ℤ × ℚ))
    (df : List Transacao) :
    (df ≠ [] → (∀ t ∈ df, today < t.data_compra) →
        calcularDadosCarteira today feed df
          = Except.error "Nenhuma transacao encontrada ate a data de hoje")
      ∧ ((∃ t ∈ df, t.data_compra ≤ today) →
          calcularDadosCarteira today feed df
              = calcularDadosCarteira today feed
                  (df.filter (fun t => decide (t.data_compra ≤ today)))
            ∧ calcularDadosCarteira today feed df
              = Except.ok (dadosDe feed
                  (df.filter (fun t => decide (t.data_compra ≤ today))))) := by
  constructor
  · intro hne hall
    have hpast : df.filter (fun t => decide (t.data_compra ≤ today)) = [] := by
      rw [List.filter_eq_nil_iff]
      intro t ht
      simp only [decide_eq_true_eq]
      exact not_le.mpr (hall t ht)
    rw [calcularDadosCarteira, if_neg hne, if_pos hpast]
  · rintro ⟨t, ht, hle⟩
    have hne : df ≠ [] := List.ne_nil_of_mem ht
    have hmempast : t ∈ df.filter (fun t => decide (t.data_compra ≤ today)) := by
      rw [List.mem_filter]
      exact ⟨ht, by simp [hle]⟩
    have hpastne : df.filter (fun t => decide (t.data_compra ≤ today)) ≠ [] :=
      List.ne_nil_of_mem hmempast
    have hidem : (df.filter (fun t => decide (t.data_compra ≤ today))).filter
        (fun t => decide (t.data_compra ≤ today))
        = df.filter (fun t => decide (t.data_compra ≤ today)) := by
      rw [List.filter_filter]
      apply List.filter_congr
      intro x _
      exact Bool.and_self _
    have hmain : calcularDadosCarteira today feed df
        = Except.ok (dadosDe feed (df.filter (fun t => decide (t.data_compra ≤ today)))) := by
      rw [calcularDadosCarteira, if_neg hne, if_neg hpastne]
    have hfiltered : calcularDadosCarteira today feed
        (df.filter (fun t => decide (t.data_compra ≤ today)))
        = Except.ok (dadosDe feed (df.filter (fun t => decide (t.data_compra ≤ today)))) := by
      rw [calcularDadosCarteira, if_neg hpastne]
      rw [if_neg (by rw [hidem]; exact hpastne), hidem]
    exact ⟨by rw [hmain, hfiltered], hmain⟩

/-- Ledger with one past and one future transaction, the C10 witness input. -/
def dfW10 : List Transacao :=
  [⟨"A", 1, 5, 0, Tipo.Compra⟩, ⟨"A", 1, 5, 20, Tipo.Compra⟩]

/-- Ledger whose only transaction is future-dated. -/
def dfFuturo : List Transacao := [⟨"A", 1, 5, 20, Tipo.Compra⟩]

/-- Empty dividend feed used in the C10 witness. -/
def feedW10 : String → List (ℤ × ℚ) := fun _ => []

theorem c10_witness :
    (dfFuturo ≠ [] ∧ (∀ t ∈ dfFuturo, (10 : ℤ) < t.data_compra)
        ∧ (∃ t ∈ dfW10, t.data_compra ≤ (10 : ℤ)))
      ∧ calcularDadosCarteira 10 feedW10 dfFuturo
          = Except.error "Nenhuma transacao encontrada ate a data de hoje"
      ∧ calcularDadosCarteira 10 feedW10 dfW10
          = Except.ok (dadosDe feedW10
              (dfW10.filter (fun t => decide (t.data_compra ≤ (10 : ℤ))))) :=
  ⟨⟨by decide, by decide, by decide⟩,
   (c10_future_transactions_discarded 10 feedW10 dfFuturo).1 (by decide) (by decide),
   ((c10_future_transactions_discarded 10 feedW10 dfW10).2 (by decide)).2⟩
